import Mathlib

/-!
Verification of the corelliumwake repository's actuation and wake-control
engine.  The definitions below are a shallow embedding of the relevant
functions of `fakewake.py` and `corelliumwake.py`:

* `valid_host` embeds `fakewake.valid_host` (access control);
* `press_button` embeds the rate-limit check of `fakewake.press_button`;
* `make_packet`, `magic_packets`, `wolScanFirstOnly`, `go_nogo` and
  `wolDatagramAction` embed the magic-packet handling of
  `fakewake.wol_listener` (including its per-datagram loop, which `break`s
  after its first iteration);
* `parse_magic_packet`, `handle_match` and `handle_magic_packet` embed
  `JetsonResetController.handle_magic_packet` of `corelliumwake.py`;
* `runPulse` models the on/sleep/off pulse with fault injection, as
  performed by `JetsonResetController.reset_jetson` (which catches
  exceptions) and `fakewake.press_button` (which does not);
* `webHandleConnection` embeds the per-connection handling of
  `fakewake.webserver`, with Python's str/bytes distinction made explicit
  because `sendall` accepts only bytes;
* `superviseStep` embeds one iteration of the thread-supervision loop of
  `fakewake.__main__`.

Byte strings are modelled as `List Nat` (each entry a byte value below 256),
wall-clock times as rationals.
-/

/-- Does `needle` occur at the start of `hay`?  Helper for Python's
substring test `needle in hay` on bytes. -/
def listStartsWith : List Nat → List Nat → Bool
  | _, [] => true
  | [], _ :: _ => false
  | a :: as, b :: bs => (a = b : Bool) && listStartsWith as bs

/-- Python's `needle in hay` on bytes objects: contiguous substring test. -/
def bytesContains : List Nat → List Nat → Bool
  | [], needle => needle.isEmpty
  | a :: t, needle => listStartsWith (a :: t) needle || bytesContains t needle

/-- ASCII lower-casing of one character, as Python's `str.lower` acts on
the ASCII strings used for MAC addresses. -/
def asciiLowerChar (c : Char) : Char :=
  if 65 ≤ c.toNat && c.toNat ≤ 90 then Char.ofNat (c.toNat + 32) else c

/-- ASCII lower-casing of a string (`str.lower` on the MAC strings). -/
def asciiLower (s : String) : String :=
  String.mk (s.data.map asciiLowerChar)

/-- The lowercase hex digit for `n < 16` (as produced by Python's `x`
format code). -/
def hexDigitChar (n : Nat) : Char :=
  if n < 10 then Char.ofNat (48 + n) else Char.ofNat (87 + n)

/-- Python's `f-string` conversion `b:02x` for a byte value `b < 256`:
two lowercase hex digits. -/
def byteHex (b : Nat) : String :=
  String.mk [hexDigitChar (b / 16 % 16), hexDigitChar (b % 16)]

/-- `':'.join(f-per-byte hex)` — corelliumwake.py:483: the MAC string
extracted from a magic packet. -/
def macString (mac : List Nat) : String :=
  String.intercalate ":" (mac.map byteHex)

/-- Value of one hex character, as accepted by Python's `int(x, 16)`. -/
def hexCharVal (c : Char) : Option Nat :=
  if 48 ≤ c.toNat && c.toNat ≤ 57 then some (c.toNat - 48)
  else if 97 ≤ c.toNat && c.toNat ≤ 102 then some (c.toNat - 87)
  else if 65 ≤ c.toNat && c.toNat ≤ 70 then some (c.toNat - 55)
  else none

/-- Python's `int(s, 16)` on a plain hex string; `none` when the source
would raise `ValueError` (empty string or a non-hex character). -/
def parseHexStr (s : String) : Option Nat :=
  match s.data with
  | [] => none
  | cs => cs.foldl
      (fun acc c =>
        match acc, hexCharVal c with
        | some v, some d => some (16 * v + d)
        | _, _ => none)
      (some 0)

/-- Python's `str.split(sep)` for a one-character separator: split at
every occurrence, keeping empty parts. -/
def splitOnCharAux (sep : Char) : List Char → List Char → List (List Char)
  | [], acc => [acc.reverse]
  | c :: rest, acc =>
    if c = sep then acc.reverse :: splitOnCharAux sep rest []
    else splitOnCharAux sep rest (c :: acc)

/-- Python's `str.split(sep)` on strings, for a one-character
separator. -/
def pySplit (s : String) (sep : Char) : List String :=
  (splitOnCharAux sep s.data []).map String.mk

/-- `int(part, 16)` applied to every part of a split MAC address
(fakewake.py:111-121 `pack_mac`); `none` when any part would raise. -/
def parseHexList : List String → Option (List Nat)
  | [] => some []
  | s :: rest =>
    match parseHexStr s, parseHexList rest with
    | some v, some vs => some (v :: vs)
    | _, _ => none

/-- fakewake.py:170-179 `make_packet`: header of six `0xFF` bytes followed
by the packed MAC repeated 16 times; `None` when the address does not
split into six parts.  A part that is not valid hex, or does not fit in a
byte, raises in the source (inside `pack_mac` / `struct.pack`); that is
modelled as `none` as well. -/
def make_packet (mac_address : String) : Option (List Nat) :=
  if (pySplit mac_address ':').length ≠ 6 then none
  else
    match parseHexList (pySplit mac_address ':') with
    | none => none
    | some vals =>
      if vals.all (fun v => v < 256) then
        some (List.replicate 6 255 ++ List.flatten (List.replicate 16 vals))
      else none

/-- fakewake.py:29-61 `valid_host`: allow list wins, then the `*`
wildcard in the deny list, then explicit deny entries, then default
allow. -/
def valid_host (ipaddr : String) (hostsAllow hostsDeny : List String) : Bool :=
  if hostsAllow.contains ipaddr then true
  else if hostsDeny.contains "*" then false
  else if hostsDeny.contains ipaddr then false
  else true

/-- fakewake.py:123-143 `press_button`, reduced to its observable rate-limit
decision: given whether a button object is configured, the minimum interval,
the stored `last_action_time` and the current time, return whether the press
is granted together with the updated `last_action_time`.  The timestamp is
updated (to `now`) exactly on a grant. -/
def press_button (hasButton : Bool) (minInterval last now : ℚ) : Bool × ℚ :=
  if hasButton = false then (false, last)
  else if now > last + minInterval then (true, now)
  else (false, last)

/-- fakewake.py:841: `last_action_time = time.time() - MIN_INTERVAL` at
startup. -/
def last_action_time_init (startTime minInterval : ℚ) : ℚ :=
  startTime - minInterval

/-- The keys of the `magic_packets` dict of `fakewake.wol_listener`
(fakewake.py:193-197), in insertion order; the aux entries are commented
out in the source. -/
inductive WolKey
  | wake
  | shutdown
  | reset
  | forceoff
deriving DecidableEq, Repr

/-- The `[wol]` section of fakewake's configuration file: the four MAC
binding options actually read (fakewake.py:729-732). -/
structure WolConfigFile where
  wake_mac : String
  shutdown_mac : String
  reset_mac : String
  forceoff_mac : String
deriving DecidableEq, Repr

/-- fakewake.py:729. -/
def WOL_WAKE_MAC_ADDRESS (c : WolConfigFile) : String := c.wake_mac

/-- fakewake.py:730. -/
def WOL_SHUTDOWN_MAC_ADDRESS (c : WolConfigFile) : String := c.shutdown_mac

/-- fakewake.py:731 reads the config key `forceoff_mac` into the variable
for the reset binding. -/
def WOL_RESET_MAC_ADDRESS (c : WolConfigFile) : String := c.forceoff_mac

/-- fakewake.py:732 reads the config key `reset_mac` into the variable
for the forceoff binding. -/
def WOL_FORCEOFF_MAC_ADDRESS (c : WolConfigFile) : String := c.reset_mac

/-- fakewake.py:193-197: the `magic_packets` dict, in insertion order. -/
def magic_packets (c : WolConfigFile) : List (WolKey × Option (List Nat)) :=
  [(WolKey.wake, make_packet (WOL_WAKE_MAC_ADDRESS c)),
   (WolKey.shutdown, make_packet (WOL_SHUTDOWN_MAC_ADDRESS c)),
   (WolKey.reset, make_packet (WOL_RESET_MAC_ADDRESS c)),
   (WolKey.forceoff, make_packet (WOL_FORCEOFF_MAC_ADDRESS c))]

/-- fakewake.py:245-289: the per-datagram loop `for k in magic_packets`.
The `break` on line 289 sits at the end of the loop body, outside the
if/else, so the loop always stops after its first iteration: only the
first dict entry is ever compared against the received data (`inc`),
using Python's bytes substring test `magic_packets[k] in inc`. -/
def wolScanFirstOnly (pkts : List (WolKey × Option (List Nat)))
    (inc : List Nat) : Option WolKey :=
  match pkts with
  | [] => none
  | (k, op) :: _ =>
    match op with
    | some p => if bytesContains inc p then some k else none
    | none => none

/-- fakewake.py:272-281: the PSU gate for a matched key.  `go_nogo` starts
`False`; `wake` needs `PSU_SENSE.is_active == False`; `shutdown`,
`forceoff` and `reset` need `PSU_SENSE.is_active == True` (the aux
branches are unreachable: the dict has no aux entries). -/
def go_nogo (k : WolKey) (psuActive : Bool) : Bool :=
  match k with
  | WolKey.wake => !psuActive
  | WolKey.shutdown => psuActive
  | WolKey.forceoff => psuActive
  | WolKey.reset => psuActive

/-- One datagram through fakewake's WOL pipeline (match, then PSU gate):
the key whose button is pressed, if any. -/
def wolDatagramAction (c : WolConfigFile) (psuActive : Bool)
    (inc : List Nat) : Option WolKey :=
  match wolScanFirstOnly (magic_packets c) inc with
  | none => none
  | some k => if go_nogo k psuActive then some k else none

/-- fakewake.py:727 sets `WOL_ENABLED = True`; fakewake.py:801-805 clears
it when no PSU sense pin is configured, so the WOL listener thread is
never started in that case (fakewake.py:538-547). -/
def wol_enabled (psu_sense_enabled : Bool) : Bool :=
  if psu_sense_enabled then true else false

/-- The tri-state PSU snapshot of the specification. -/
inductive PsuState
  | on
  | off
  | unknown
deriving DecidableEq, Repr

/-- corelliumwake.py never configures a sense input: `init_gpio`
(corelliumwake.py:127-148) creates only `OutputDevice` objects, so the
PSU state of every Jetson is permanently Unknown in the specification's
terms. -/
def corelliumPsuState : PsuState := PsuState.unknown

/-- corelliumwake.py:472-483: the validation and MAC extraction at the
head of `handle_magic_packet`.  Payloads under 102 bytes are rejected,
payloads whose first six bytes are not all `0xFF` are rejected, and on
success the MAC is `data[6:12]`; the 15 remaining repetitions are not
examined. -/
def parse_magic_packet (data : List Nat) : Option (List Nat) :=
  if data.length < 102 then none
  else if data.take 6 ≠ List.replicate 6 255 then none
  else some ((data.drop 6).take 6)

/-- corelliumwake's configuration, restricted to what
`handle_magic_packet` reads: for each of the five `jetson_i` sections,
`none` when the section is absent, otherwise the `magic_packet_mac`
value (the empty string when the key is missing, via the `fallback`). -/
structure CwConfig where
  jetson1 : Option String
  jetson2 : Option String
  jetson3 : Option String
  jetson4 : Option String
  jetson5 : Option String
deriving DecidableEq, Repr

/-- The `magic_packet_mac` of section `jetson_i`, when that section
exists; sections are numbered 1 through 5. -/
def sectionMac (c : CwConfig) (i : Nat) : Option String :=
  match i with
  | 1 => c.jetson1
  | 2 => c.jetson2
  | 3 => c.jetson3
  | 4 => c.jetson4
  | 5 => c.jetson5
  | _ => none

/-- The loop-body condition of corelliumwake.py:488-495 for section `i`:
the section exists and `config_mac.lower() == mac_address.lower()`. -/
def sectionHit (c : CwConfig) (i : Nat) (mac : String) : Bool :=
  match sectionMac c i with
  | some cmac => asciiLower cmac == asciiLower mac
  | none => false

/-- corelliumwake.py:488-495: `for i in range(1, 6)` with an early
`return` on the first section whose configured MAC matches, unrolled. -/
def handle_match (c : CwConfig) (mac : String) : Option Nat :=
  if sectionHit c 1 mac then some 1
  else if sectionHit c 2 mac then some 2
  else if sectionHit c 3 mac then some 3
  else if sectionHit c 4 mac then some 4
  else if sectionHit c 5 mac then some 5
  else none

/-- No section numbered below `i` satisfies the loop-body condition:
the sections a first-match result `i` must have skipped. -/
def noEarlierHit (c : CwConfig) (i : Nat) (mac : String) : Bool :=
  match i with
  | 2 => !(sectionHit c 1 mac)
  | 3 => !(sectionHit c 1 mac) && !(sectionHit c 2 mac)
  | 4 => !(sectionHit c 1 mac) && !(sectionHit c 2 mac) && !(sectionHit c 3 mac)
  | 5 => !(sectionHit c 1 mac) && !(sectionHit c 2 mac) && !(sectionHit c 3 mac)
         && !(sectionHit c 4 mac)
  | _ => true

/-- corelliumwake.py:472-497 `handle_magic_packet`: parse and extract the
MAC, then scan the sections in ascending order; the result is the id
passed to `reset_jetson`, or `none` when the packet is dropped.  No PSU
state and no clock is consulted anywhere on this path. -/
def handle_magic_packet (c : CwConfig) (data : List Nat) : Option Nat :=
  match parse_magic_packet data with
  | none => none
  | some macBytes => handle_match c (macString macBytes)

/-- Number of reset pulses corelliumwake performs for a list of received
datagrams: one per matched packet (`handle_magic_packet` calls
`reset_jetson` exactly on a match). -/
def corelliumPulses (c : CwConfig) (datagrams : List (List Nat)) : Nat :=
  (datagrams.map (handle_magic_packet c)).countP Option.isSome

/-- Number of reset pulses for time-stamped datagrams.  The handler never
reads a clock (corelliumwake.py:472-497 and corelliumwake.py:150-175
contain no time comparison), so the arrival times are ignored. -/
def corelliumPulsesAt (c : CwConfig) (timed : List (ℚ × List Nat)) : Nat :=
  corelliumPulses c (timed.map Prod.snd)

/-- Fault injection point for the on/sleep/off pulse sequence: no fault,
or an exception raised by `on()`, by the sleep, or by `off()`. -/
inductive FaultPoint
  | noFault
  | atOn
  | atSleep
  | atOff
deriving DecidableEq, Repr

/-- Observable outcome of one actuation attempt: whether the function
reported completion, the final level of the output line, and whether an
exception escaped the function. -/
structure ActuationOutcome where
  completed : Bool
  lineActive : Bool
  crashed : Bool
deriving DecidableEq, Repr

/-- The on/sleep/off pulse with fault injection.  The line starts
inactive (`OutputDevice(..., initial_value=False)`).  `caught` tells
whether the surrounding code wraps the pulse in a try/except
(corelliumwake.py:158-175 does; fakewake.py:139-141 does not).  An
exception raised by `on()` is assumed to leave the line undriven; an
exception raised later leaves the line active, because neither source
function drives the line low in its failure path. -/
def runPulse (caught : Bool) : FaultPoint → ActuationOutcome
  | FaultPoint.noFault => ⟨true, false, false⟩
  | FaultPoint.atOn => ⟨false, false, !caught⟩
  | FaultPoint.atSleep => ⟨false, true, !caught⟩
  | FaultPoint.atOff => ⟨false, true, !caught⟩

/-- corelliumwake.py:150-175 `reset_jetson` under fault injection: the
except block on lines 173-175 logs and returns `False`, without driving
the line low. -/
def reset_jetson_run (fault : FaultPoint) : ActuationOutcome :=
  runPulse true fault

/-- fakewake.py:123-143 `press_button` under fault injection during the
pulse itself: there is no try/except, so the exception escapes. -/
def press_button_fault_run (fault : FaultPoint) : ActuationOutcome :=
  runPulse false fault

/-- A Python value passed to `socket.sendall`: either a `str` or a
`bytes` object. -/
inductive PyData
  | pstr (s : String)
  | pbytes (s : String)
deriving DecidableEq, Repr

/-- Python 3's `socket.sendall` accepts only bytes-like objects; passing
a `str` raises `TypeError`. -/
def sendall : PyData → Except String Unit
  | PyData.pbytes _ => Except.ok ()
  | PyData.pstr _ => Except.error "TypeError"

/-- fakewake.py:341-342: the `error403` page.  It is an ordinary `str`
(never encoded at its use site on line 376), and its status line is the
`200 OK` of `ok_header`, with the 403 only in the body. -/
def error403 : PyData :=
  PyData.pstr "HTTP/1.0 200 OK\n\n<h2>403 Forbidden</h2></body></html>"

/-- A physical button press requested by the webserver's action routes
(fakewake.py:471-490). -/
inductive WebPress
  | powerShort
  | powerLong
  | resetShort
  | aux1Short
  | aux2Short
deriving DecidableEq, Repr

/-- The state the webserver's request handling reads: access lists,
capability flags, the current PSU sense level, and local power control. -/
structure WebEnv where
  hostsAllow : List String
  hostsDeny : List String
  powerEnabled : Bool
  resetEnabled : Bool
  aux1Enabled : Bool
  aux2Enabled : Bool
  psuActive : Bool
  localPwrCtrl : Bool
deriving DecidableEq, Repr

/-- Outcome of handling one accepted TCP connection: the payloads
successfully sent, the button presses performed, and the uncaught
exception that killed the webserver thread, if any. -/
structure ConnResult where
  sentOk : List PyData
  presses : List WebPress
  crashed : Option String
deriving DecidableEq, Repr

/-- fakewake.py:394-504: the handling of one request line whose first
token is `GET`.  Page bodies other than `error403` are abstracted to
tags, since only which response class is sent (and which buttons are
pressed) matters to the engine. -/
def webHandleGet (env : WebEnv) (url0 : String) : List PyData × List WebPress :=
  let url := (pySplit url0 '?').headD url0
  if (["/", "/power", "/forcepower", "/reset", "/config", "/log",
       "/rebootme", "/poweroffme"].contains url) = false then
    ([PyData.pbytes "error404"], [])
  else if url = "/log" then ([PyData.pbytes "logpage"], [])
  else if url = "/config" then ([PyData.pbytes "configpage"], [])
  else if url = "/" then ([PyData.pbytes "mainpage"], [])
  else
    -- fakewake.py:471-504: a sequence of independent `if` statements
    let s1 := if url == "/power" && env.powerEnabled then
        ([PyData.pbytes "workingpage"], [WebPress.powerShort]) else ([], [])
    let s2 := if url == "/forcepower" && env.powerEnabled && env.psuActive then
        ([PyData.pbytes "workingpage"], [WebPress.powerLong]) else ([], [])
    let s3 := if url == "/reset" && env.resetEnabled && env.psuActive then
        ([PyData.pbytes "workingpage"], [WebPress.resetShort]) else ([], [])
    -- the aux routes are unreachable: "/aux1" and "/aux2" are not in the
    -- route list checked on fakewake.py:399
    let s4 := if url == "/rebootme" then
        ([PyData.pbytes (if env.localPwrCtrl then "workingpage" else "error404")], [])
      else ([], [])
    (s1.1 ++ s2.1 ++ s3.1 ++ s4.1, s1.2 ++ s2.2 ++ s3.2 ++ s4.2)

/-- fakewake.py:385-393: dispatch on the first token of one request
line.  Known non-GET methods get the 405 page; unknown prefixes are
ignored; a GET line is split into exactly three tokens (a mismatch
raises `ValueError` at the unpacking on line 396). -/
def webHandleLine (env : WebEnv) (line : String) :
    Except String (List PyData × List WebPress) :=
  let pfx := (pySplit line ' ').headD ""
  if ["POST", "HEAD", "PUT", "DELETE", "OPTIONS", "CONNECT"].contains pfx then
    Except.ok ([PyData.pbytes "error405"], [])
  else if pfx == "GET" then
    match pySplit line ' ' with
    | [_, url, _] => Except.ok (webHandleGet env url)
    | _ => Except.error "ValueError"
  else Except.ok ([], [])

/-- fakewake.py:366-505: handling of one accepted connection.  A blocked
peer is rejected before the request is received: the source calls
`client_socket.sendall(error403)` on line 376 with the `error403` str —
in Python 3 this raises `TypeError`, which nothing catches, so the
webserver thread dies and nothing is sent.  For an allowed peer every
line of the received request is processed in turn. -/
def webHandleConnection (env : WebEnv) (clientAddr : String)
    (requestLines : List String) : ConnResult :=
  if valid_host clientAddr env.hostsAllow env.hostsDeny = false then
    match sendall error403 with
    | Except.error e => ⟨[], [], some e⟩
    | Except.ok _ => ⟨[error403], [], none⟩
  else
    requestLines.foldl
      (fun acc line =>
        match acc.crashed with
        | some _ => acc
        | none =>
          match webHandleLine env line with
          | Except.error e => ⟨acc.sentOk, acc.presses, some e⟩
          | Except.ok (sends, presses) =>
            ⟨acc.sentOk ++ sends, acc.presses ++ presses, none⟩)
      ⟨[], [], none⟩

/-- Configuration read by the supervision loop: the `restart` option of
the `[threads]` section, and whether the pinger and webserver are
enabled (their start functions return `None` when disabled,
fakewake.py:512-536). -/
structure SupervisorCfg where
  restartThreads : Bool
  pingerEnabled : Bool
  webserverEnabled : Bool
deriving DecidableEq, Repr

/-- The three listener thread variables of the main loop: `none` models
the Python value `None`, `some b` a `Thread` object with
`is_alive() == b`.  A `Thread` object is truthy even when dead. -/
structure ThreadStates where
  ping : Option Bool
  web : Option Bool
  wol : Option Bool
deriving DecidableEq, Repr

/-- Result of one supervision-loop iteration: the new thread variables
and whether the `break` on fakewake.py:935 fired (ending the process's
main loop). -/
structure SuperviseResult where
  threads : ThreadStates
  brk : Bool
deriving DecidableEq, Repr

/-- fakewake.py:512-523 `start_pinger`: a fresh running thread when the
pinger is enabled, otherwise `None`. -/
def start_pinger (pingerEnabled : Bool) : Option Bool :=
  if pingerEnabled then some true else none

/-- fakewake.py:525-536 `start_webserver`: a fresh running thread when
the webserver is enabled, otherwise `None`. -/
def start_webserver (webserverEnabled : Bool) : Option Bool :=
  if webserverEnabled then some true else none

/-- fakewake.py:917-940: one iteration of the supervision loop.  The
pinger branch (921-926) restarts or merely warns.  The webserver branch
(927-935) restarts when allowed, then tests `if webserver_thread:` —
object truthiness, true for any Thread object, dead or alive — and only
`break`s when the variable is `None`.  The WOL branch (936-938) warns
and clears the variable; it is not reached when the `break` fired. -/
def superviseStep (cfg : SupervisorCfg) (t : ThreadStates) : SuperviseResult :=
  let ping2 :=
    match t.ping with
    | some false =>
      if cfg.restartThreads then start_pinger cfg.pingerEnabled else some false
    | st => st
  let web2 :=
    match t.web with
    | some false =>
      if cfg.restartThreads then start_webserver cfg.webserverEnabled
      else some false
    | _ => t.web
  let doBreak :=
    match t.web with
    | some false => web2.isNone
    | _ => false
  let wol2 :=
    if doBreak then t.wol
    else
      match t.wol with
      | some false => none
      | st => st
  ⟨⟨ping2, web2, wol2⟩, doBreak⟩

/-- corelliumwake's default per-section MAC bindings
(corelliumwake.py:87-100). -/
def demoCwCfg : CwConfig :=
  ⟨some "00:00:00:00:00:01", some "00:00:00:00:00:02",
   some "00:00:00:00:00:03", some "00:00:00:00:00:04",
   some "00:00:00:00:00:05"⟩

/-- A well-formed magic packet carrying jetson1's default MAC. -/
def demoWake1Packet : List Nat :=
  List.replicate 6 255 ++ List.flatten (List.replicate 16 [0, 0, 0, 0, 0, 1])

/-- A fakewake `[wol]` configuration with four distinct bindings. -/
def demoWolCfg : WolConfigFile :=
  ⟨"00:00:00:00:00:0a", "00:00:00:00:00:0b",
   "00:00:00:00:00:0c", "00:00:00:00:00:0d"⟩

/-- The magic packet for `demoWolCfg`'s `wake_mac`. -/
def demoWakePacket : List Nat :=
  List.replicate 6 255 ++ List.flatten (List.replicate 16 [0, 0, 0, 0, 0, 10])

/-- The magic packet for `demoWolCfg`'s `shutdown_mac`. -/
def demoShutdownPacket : List Nat :=
  List.replicate 6 255 ++ List.flatten (List.replicate 16 [0, 0, 0, 0, 0, 11])

/-- A webserver environment whose deny list blocks every address. -/
def demoBlockedEnv : WebEnv :=
  ⟨[], ["*"], true, true, false, false, true, false⟩

/-! ## Helper lemmas -/

theorem listStartsWith_length {hay needle : List Nat}
    (h : listStartsWith hay needle = true) : needle.length ≤ hay.length := by
  induction needle generalizing hay with
  | nil => simp
  | cons b bs ih =>
    cases hay with
    | nil => simp [listStartsWith] at h
    | cons a t =>
      simp only [listStartsWith, Bool.and_eq_true] at h
      have := ih h.2
      simp only [List.length_cons]
      omega

theorem bytesContains_eq_false_of_lt {hay needle : List Nat}
    (h : hay.length < needle.length) : bytesContains hay needle = false := by
  induction hay with
  | nil =>
    cases needle with
    | nil => simp at h
    | cons b bs => simp [bytesContains]
  | cons a t ih =>
    have h1 : listStartsWith (a :: t) needle = false := by
      cases hs : listStartsWith (a :: t) needle with
      | false => rfl
      | true =>
        have hl := listStartsWith_length hs
        exfalso
        simp only [List.length_cons] at h hl
        omega
    have h2 : bytesContains t needle = false := by
      refine ih ?_
      simp only [List.length_cons] at h
      omega
    simp [bytesContains, h1, h2]

theorem parseHexList_length {l : List String} {v : List Nat}
    (h : parseHexList l = some v) : v.length = l.length := by
  induction l generalizing v with
  | nil =>
    simp only [parseHexList, Option.some.injEq] at h
    subst h
    rfl
  | cons s rest ih =>
    simp only [parseHexList] at h
    cases h1 : parseHexStr s with
    | none => rw [h1] at h; simp at h
    | some x =>
      rw [h1] at h
      cases h2 : parseHexList rest with
      | none => rw [h2] at h; simp at h
      | some xs =>
        rw [h2] at h
        simp only [Option.some.injEq] at h
        subst h
        simp [List.length_cons, ih h2]

theorem make_packet_length {s : String} {p : List Nat}
    (h : make_packet s = some p) : p.length = 102 := by
  unfold make_packet at h
  split at h
  · exact absurd h (by simp)
  · rename_i hlen
    split at h
    · exact absurd h (by simp)
    · rename_i vals heq
      split at h
      · have hp := (Option.some.inj h).symm
        have hv : vals.length = 6 :=
          (parseHexList_length heq).trans (not_not.mp hlen)
        subst hp
        simp only [List.length_append, List.length_replicate,
          List.length_flatten, List.map_replicate, List.sum_replicate,
          smul_eq_mul, hv]
      · exact absurd h (by simp)

theorem demo_handle_eq :
    handle_magic_packet demoCwCfg demoWake1Packet = some 1 := by rfl

/-! ## Claim theorems -/

/-- C5: fakewake's `valid_host` decides in the claimed order: an address
on the allow list is always permitted regardless of the deny list;
otherwise a `*` on the deny list denies it; otherwise it is denied
exactly when it is explicitly on the deny list; and with both lists
empty every address is permitted. -/
theorem c5_access_evaluator (addr : String) (allow deny : List String) :
    valid_host addr allow deny =
      (allow.contains addr || (!(deny.contains "*") && !(deny.contains addr)))
    ∧ valid_host addr [] [] = true := by
  constructor
  · unfold valid_host
    cases h1 : allow.contains addr <;> cases h2 : deny.contains "*" <;>
      cases h3 : deny.contains addr <;> simp [h1, h2, h3]
  · rfl

/-- C9 counterexample: with startup at time 1000 and MIN_INTERVAL 2 the
rate-limit state is initialised to 998, and a first request at exactly
the startup instant is denied, because the guard's strict comparison
`now > last_action_time + MIN_INTERVAL` compares 1000 > 1000.  The
claim asserts the first request at any time at or after startup is
permitted. -/
theorem c9_counterexample :
    (press_button true 2 (last_action_time_init 1000 2) 1000).1 = false := by
  norm_num [press_button, last_action_time_init]

/-- C9 amended: the rate-limit state is initialised at startup to the
current time minus MIN_INTERVAL and the guard grants when
`now > last_action_time + MIN_INTERVAL`, so the first action request
strictly after startup is always permitted (a request at exactly the
startup instant is denied by the strict comparison). -/
theorem c9_first_request (startTime minInterval t : ℚ) (h : startTime < t) :
    last_action_time_init startTime minInterval = startTime - minInterval ∧
    (press_button true minInterval
        (last_action_time_init startTime minInterval) t).1 = true := by
  refine ⟨rfl, ?_⟩
  simp [press_button, last_action_time_init, h]

theorem c9_first_request_witness :
    last_action_time_init 1000 2 = 1000 - 2 ∧
    (press_button true 2 (last_action_time_init 1000 2) 1001).1 = true :=
  c9_first_request 1000 2 1001 (by norm_num)

/-- C7 counterexample: inject a failure during the hold phase of
corelliumwake's `reset_jetson` pulse.  The failure is surfaced as a
not-completed result without a crash, but the output line is left
active: the except block on corelliumwake.py:173-175 does not drive it
back to the inactive state before surfacing the failure. -/
theorem c7_counterexample :
    reset_jetson_run FaultPoint.atSleep = ⟨false, true, false⟩ := rfl

/-- C7 amended: a failed actuation in corelliumwake's `reset_jetson` is
surfaced as a logged not-completed result rather than a crash, but the
handler does not drive the output line back to the inactive state: a
failure during the hold or release phase leaves the line active.
fakewake's `press_button` has no handler at all, so the failure escapes
to the caller, with the line in the same states. -/
theorem c7_failure_surfacing (f : FaultPoint) (hf : f ≠ FaultPoint.noFault) :
    (reset_jetson_run f).completed = false ∧
    (reset_jetson_run f).crashed = false ∧
    (press_button_fault_run f).crashed = true ∧
    (reset_jetson_run f).lineActive =
      decide (f = FaultPoint.atSleep ∨ f = FaultPoint.atOff) := by
  cases f
  · exact absurd rfl hf
  all_goals simp [reset_jetson_run, press_button_fault_run, runPulse]

theorem c7_failure_surfacing_witness :
    (reset_jetson_run FaultPoint.atSleep).completed = false ∧
    (reset_jetson_run FaultPoint.atSleep).crashed = false ∧
    (press_button_fault_run FaultPoint.atSleep).crashed = true ∧
    (reset_jetson_run FaultPoint.atSleep).lineActive =
      decide (FaultPoint.atSleep = FaultPoint.atSleep ∨
              FaultPoint.atSleep = FaultPoint.atOff) :=
  c7_failure_surfacing FaultPoint.atSleep (by decide)

/-- C8 evaluated at the failing input: with thread restart disabled and
the webserver thread dead (first conjunct), one supervision-loop
iteration does not fire the `break` — `if webserver_thread:` on
fakewake.py:931 tests the truthiness of the dead Thread object, so the
critical-and-exit branch on lines 933-935 is unreachable and the
process keeps looping instead of shutting down.  The other conjuncts
show a dead pinger and a dead WOL listener never fire the `break`,
with or without restart. -/
theorem c8_supervisor_eval :
    superviseStep ⟨false, true, true⟩ ⟨some true, some false, some true⟩ =
      ⟨⟨some true, some false, some true⟩, false⟩ ∧
    superviseStep ⟨false, true, true⟩ ⟨some false, some true, some false⟩ =
      ⟨⟨some false, some true, none⟩, false⟩ ∧
    superviseStep ⟨true, true, true⟩ ⟨some false, some true, some false⟩ =
      ⟨⟨some true, some true, none⟩, false⟩ :=
  ⟨rfl, rfl, rfl⟩

/-- C1 counterexample: corelliumwake's PSU state is permanently Unknown
(no sense actuator is ever configured), yet its magic-packet handler
actuates a reset on a MAC match: a PSU-gated action (Reset) proceeds on
a path where the claim requires every PSU-gated action to be denied and
wake-on-LAN-triggered actuation to be disabled entirely. -/
theorem c1_counterexample :
    corelliumPsuState = PsuState.unknown ∧
    handle_magic_packet demoCwCfg demoWake1Packet = some 1 :=
  ⟨rfl, demo_handle_eq⟩

/-- C1 amended: on fakewake's WOL path the gate holds — Wake is allowed
exactly when the PSU is sensed off; Shutdown, Reset and ForceOff exactly
when it is sensed on — a matched packet actuates exactly when the gate
allows it, and with no sense actuator configured the WOL listener is
disabled entirely.  corelliumwake's magic-packet handler has no sense
actuator and actuates reset on a MAC match without any PSU gating. -/
theorem c1_action_gate (psu : Bool) (c : WolConfigFile) (inc : List Nat) :
    go_nogo WolKey.wake psu = !psu ∧
    go_nogo WolKey.shutdown psu = psu ∧
    go_nogo WolKey.reset psu = psu ∧
    go_nogo WolKey.forceoff psu = psu ∧
    wol_enabled false = false ∧
    (wolDatagramAction c psu inc).isSome =
      ((wolScanFirstOnly (magic_packets c) inc).any fun k => go_nogo k psu) ∧
    handle_magic_packet demoCwCfg demoWake1Packet = some 1 := by
  refine ⟨rfl, rfl, rfl, rfl, rfl, ?_, demo_handle_eq⟩
  unfold wolDatagramAction
  cases hs : wolScanFirstOnly (magic_packets c) inc with
  | none => rfl
  | some k => cases hg : go_nogo k psu <;> simp [hg, Option.any]

/-- C2 counterexample: corelliumwake performs one reset pulse per
matched magic packet without consulting any clock, so the same packet
received at times 0 and 1/10 — closer together than fakewake's default
MIN_INTERVAL of 1/5 second — produces two pulses, not at most one. -/
theorem c2_counterexample :
    corelliumPulsesAt demoCwCfg
      [((0 : ℚ), demoWake1Packet), ((1 : ℚ) / 10, demoWake1Packet)] = 2 := by
  rfl

/-- C2 amended: fakewake's rate-limit guard grants at most one of two
requests less than MIN_INTERVAL apart — if the first is granted the
stored timestamp becomes t1 and the second fails the strict comparison.
corelliumwake's reset path has no rate-limit guard at all: n receptions
of a matched packet produce n pulses regardless of their spacing. -/
theorem c2_rate_limit (minInterval last t1 t2 : ℚ) (n : Nat)
    (h12 : t1 < t2) (hcl : t2 - t1 < minInterval)
    (hg : (press_button true minInterval last t1).1 = true) :
    (press_button true minInterval
        (press_button true minInterval last t1).2 t2).1 = false ∧
    corelliumPulses demoCwCfg (List.replicate n demoWake1Packet) = n := by
  constructor
  · by_cases hc : t1 > last + minInterval
    · have hstep : press_button true minInterval last t1 = (true, t1) := by
        simp [press_button, hc]
      rw [hstep]
      have hno : ¬ t2 > t1 + minInterval := by linarith
      simp [press_button, hno]
    · have hstep : press_button true minInterval last t1 = (false, last) := by
        simp [press_button, hc]
      rw [hstep] at hg
      simp at hg
  · induction n with
    | zero => rfl
    | succ k ih =>
      unfold corelliumPulses at ih ⊢
      rw [List.replicate_succ, List.map_cons, List.countP_cons, demo_handle_eq,
        ih]
      simp

theorem c2_rate_limit_witness :
    (press_button true 1 (press_button true 1 (-2 : ℚ) 0).2 (1 / 2)).1 = false ∧
    corelliumPulses demoCwCfg (List.replicate 2 demoWake1Packet) = 2 :=
  c2_rate_limit 1 (-2) 0 (1 / 2) 2 (by norm_num) (by norm_num)
    (by norm_num [press_button])

/-- C3 evaluated at the failing input: with four distinct configured
bindings, a datagram that is exactly the configured shutdown binding's
magic packet produces no actuation whatever the PSU state, because the
`break` on fakewake.py:289 ends the matching loop after its first
iteration, so only the wake binding is ever compared.  The last two
conjuncts show that fakewake.py:731-732 additionally load the reset and
forceoff bindings swapped: the reset matcher is built from the
`forceoff_mac` config key and vice versa. -/
theorem c3_matcher_eval :
    make_packet (WOL_SHUTDOWN_MAC_ADDRESS demoWolCfg) =
      some demoShutdownPacket ∧
    wolDatagramAction demoWolCfg true demoShutdownPacket = none ∧
    wolDatagramAction demoWolCfg false demoShutdownPacket = none ∧
    WOL_RESET_MAC_ADDRESS demoWolCfg = "00:00:00:00:00:0d" ∧
    WOL_FORCEOFF_MAC_ADDRESS demoWolCfg = "00:00:00:00:00:0c" :=
  ⟨rfl, rfl, rfl, rfl, rfl⟩

/-- C4 counterexample: fakewake's listener accepts a datagram whose
first six bytes are not all 0xFF — a configured packet embedded at
offset 1 still satisfies the bytes substring test on fakewake.py:248 —
so on this path a frame is produced although the claimed header
condition fails. -/
theorem c4_counterexample :
    wolScanFirstOnly (magic_packets demoWolCfg) (0 :: demoWakePacket) =
      some WolKey.wake ∧
    (0 :: demoWakePacket).take 6 ≠ List.replicate 6 255 :=
  ⟨rfl, by decide⟩

/-- C4 amended: corelliumwake's parser returns a frame iff the payload
is at least 102 bytes and begins with six 0xFF bytes, extracting the
MAC from bytes 6-11 with the remaining repetitions unvalidated;
fakewake's listener instead accepts a payload iff it contains a
configured 102-byte packet as a contiguous substring — it therefore
also rejects every payload under 102 bytes, but does not require the
0xFF header to sit at the start of the payload. -/
theorem c4_parse_rules (data d2 mac : List Nat) (c : WolConfigFile)
    (inc : List Nat) (hmac : parse_magic_packet d2 = some mac)
    (hshort : inc.length < 102) :
    ((parse_magic_packet data).isSome = true ↔
      (102 ≤ data.length ∧ data.take 6 = List.replicate 6 255)) ∧
    mac = (d2.drop 6).take 6 ∧
    wolScanFirstOnly (magic_packets c) inc = none ∧
    wolScanFirstOnly (magic_packets demoWolCfg) (0 :: demoWakePacket) =
      some WolKey.wake := by
  refine ⟨?_, ?_, ?_, rfl⟩
  · unfold parse_magic_packet
    split_ifs with h1 h2
    · simp only [Option.isSome_none, Bool.false_eq_true, false_iff]
      rintro ⟨hge, _⟩
      omega
    · simp only [Option.isSome_none, Bool.false_eq_true, false_iff]
      rintro ⟨_, htake⟩
      exact h2 htake
    · simp only [Option.isSome_some, true_iff]
      exact ⟨by omega, not_not.mp h2⟩
  · unfold parse_magic_packet at hmac
    split_ifs at hmac with h1 h2
    exact (Option.some.inj hmac).symm
  · unfold wolScanFirstOnly magic_packets
    cases hmp : make_packet (WOL_WAKE_MAC_ADDRESS c) with
    | none => rfl
    | some p =>
      have hlen := make_packet_length hmp
      have hfalse : bytesContains inc p = false :=
        bytesContains_eq_false_of_lt (by omega)
      simp [hfalse]

theorem c4_parse_rules_witness :
    ((parse_magic_packet demoWake1Packet).isSome = true ↔
      (102 ≤ demoWake1Packet.length ∧
       demoWake1Packet.take 6 = List.replicate 6 255)) ∧
    [0, 0, 0, 0, 0, 1] = (demoWake1Packet.drop 6).take 6 ∧
    wolScanFirstOnly (magic_packets demoWolCfg) [1, 2, 3] = none ∧
    wolScanFirstOnly (magic_packets demoWolCfg) (0 :: demoWakePacket) =
      some WolKey.wake :=
  c4_parse_rules demoWake1Packet demoWake1Packet [0, 0, 0, 0, 0, 1] demoWolCfg
    [1, 2, 3] (by rfl) (by norm_num)

/-- C6 evaluated at the failing input: the address 10.0.0.1, with an
empty allow list and a deny list holding the wildcard, is blocked, and
handling its connection performs zero button presses — but instead of a
Forbidden response nothing is sent at all: `sendall(error403)` on
fakewake.py:376 is passed a str (there is no `.encode()`), which raises
TypeError and kills the webserver thread. -/
theorem c6_blocked_connection_eval :
    valid_host "10.0.0.1" ([] : List String) ["*"] = false ∧
    webHandleConnection demoBlockedEnv "10.0.0.1" ["GET /reset HTTP/1.0"] =
      ⟨[], [], some "TypeError"⟩ :=
  ⟨rfl, rfl⟩

/-- C10: corelliumwake's handler maps a received packet to at most one
device: it scans sections jetson1 through jetson5 in ascending order
and resets the first whose configured MAC matches, returning
immediately, so even with duplicate MACs only the lowest-numbered
device is pulsed — the returned id is in 1..5, its section matches, and
every lower-numbered section misses. -/
theorem c10_first_match_wins (c : CwConfig) (data mac : List Nat) (i : Nat)
    (hp : parse_magic_packet data = some mac)
    (h : handle_magic_packet c data = some i) :
    1 ≤ i ∧ i ≤ 5 ∧
    sectionHit c i (macString mac) = true ∧
    noEarlierHit c i (macString mac) = true := by
  unfold handle_magic_packet at h
  rw [hp] at h
  have hm : handle_match c (macString mac) = some i := h
  unfold handle_match at hm
  split_ifs at hm with h1 h2 h3 h4 h5
  · obtain rfl : i = 1 := (Option.some.inj hm).symm
    exact ⟨by omega, by omega, h1, rfl⟩
  · obtain rfl : i = 2 := (Option.some.inj hm).symm
    rw [Bool.not_eq_true] at h1
    exact ⟨by omega, by omega, h2, by simp [noEarlierHit, h1]⟩
  · obtain rfl : i = 3 := (Option.some.inj hm).symm
    rw [Bool.not_eq_true] at h1 h2
    exact ⟨by omega, by omega, h3, by simp [noEarlierHit, h1, h2]⟩
  · obtain rfl : i = 4 := (Option.some.inj hm).symm
    rw [Bool.not_eq_true] at h1 h2 h3
    exact ⟨by omega, by omega, h4, by simp [noEarlierHit, h1, h2, h3]⟩
  · obtain rfl : i = 5 := (Option.some.inj hm).symm
    rw [Bool.not_eq_true] at h1 h2 h3 h4
    exact ⟨by omega, by omega, h5, by simp [noEarlierHit, h1, h2, h3, h4]⟩

theorem c10_first_match_wins_witness :
    1 ≤ 1 ∧ 1 ≤ 5 ∧
    sectionHit demoCwCfg 1 (macString [0, 0, 0, 0, 0, 1]) = true ∧
    noEarlierHit demoCwCfg 1 (macString [0, 0, 0, 0, 0, 1]) = true :=
  c10_first_match_wins demoCwCfg demoWake1Packet [0, 0, 0, 0, 0, 1] 1
    (by rfl) (by rfl)
